import Mathlib

set_option maxHeartbeats 1000000
set_option maxRecDepth 8192

/-!
Shallow embedding of the PinTracer trace writer and filter engine of this
repository (src/PinTracer/TraceWriter.cpp, src/PinTracer/FilterEntry.h).

Machine integers (UINT8, UINT32, UINT64, ADDRINT, uintptr_t) are modelled as
Nat; the only arithmetic performed on them by the code is comparison, bitwise
operations (which cannot overflow) and one UINT64 multiplication, which is
reduced mod 2^64. File output is modelled at record granularity: each call of
the output stream's write method appends one chunk (a list of records) to
`writes`; the byte length of the file is the total record count times the
fixed record size.
-/

/-- Bit constant from FilterEntry.h: FilterTypeWhiteList = 1 << 0. -/
def FilterTypeWhiteList : Nat := 1

/-- Bit constant from FilterEntry.h: FilterTypeControlFlow = 1 << 1. -/
def FilterTypeControlFlow : Nat := 2

/-- Bit constant from FilterEntry.h: FilterTypeDataAccess = 1 << 2. -/
def FilterTypeDataAccess : Nat := 4

/-- Bit constant from FilterEntry.h: FilterTypeJump = 1 << 3. -/
def FilterTypeJump : Nat := 8

/-- Bit constant from FilterEntry.h: FilterTypeCall = 1 << 4. -/
def FilterTypeCall : Nat := 16

/-- Bit constant from FilterEntry.h: FilterTypeReturn = 1 << 5. -/
def FilterTypeReturn : Nat := 32

/-- Bit constant from FilterEntry.h: FilterTypeLinearize = 1 << 6. -/
def FilterTypeLinearize : Nat := 64

/-- Bit constant from FilterEntry.h: FilterTypeRead = 1 << 6 (shares the bit of Linearize). -/
def FilterTypeRead : Nat := 64

/-- Bit constant from FilterEntry.h: FilterTypeWrite = 1 << 7. -/
def FilterTypeWrite : Nat := 128

/-- FilterEntry.h: FilterTypeMatch(type, value) = (((type) & (value)) == (type)). -/
def FilterTypeMatch (t v : Nat) : Bool := (t &&& v) == t

/-- FilterEntry.h: one filtering rule (bitmask plus four inclusive bounds). -/
structure FilterEntry where
  type : Nat
  originStart : Nat
  originEnd : Nat
  targetStart : Nat
  targetEnd : Nat
deriving DecidableEq

/-- Trace entry type tags. The enum lives in TraceWriter.h, which is not among
the provided sources; the tag names are taken from their uses in
TraceWriter.cpp and from the spec's data model. Only the tags themselves are
needed, not their numeric values. -/
inductive TraceEntryTypes where
  | MemoryRead
  | MemoryWrite
  | HeapAllocSizeParameter
  | HeapAllocAddressReturn
  | HeapFreeAddressParameter
  | StackPointerModification
  | StackPointerInfo
  | Branch
deriving DecidableEq

/-- Modelled from the spec: the TraceEntryFlags enum lives in TraceWriter.h,
which is not among the provided sources. Per the spec the 8-bit Flag field
encodes taken/not-taken and the branch sub-type (jump/call/return) as bit
patterns; the mask-and-compare idiom in IsWhitelisted
((flag & BranchTypeReturn) compared against Jump/Call/Return) together with
the linearization rewrite (flag ^= Call ^ Jump) force BranchTypeReturn to be
the union of the Jump and Call bit patterns, disjoint from the taken bits.
BranchTaken = 1. -/
def BranchTaken : Nat := 1

/-- Modelled from the spec: BranchNotTaken = 2 (see BranchTaken). -/
def BranchNotTaken : Nat := 2

/-- Modelled from the spec: BranchTypeJump = 4 (see BranchTaken). -/
def BranchTypeJump : Nat := 4

/-- Modelled from the spec: BranchTypeCall = 8 (see BranchTaken). -/
def BranchTypeCall : Nat := 8

/-- Modelled from the spec: BranchTypeReturn = BranchTypeJump | BranchTypeCall = 12
(see BranchTaken). -/
def BranchTypeReturn : Nat := 12

/-- One fixed-size trace record. The C++ field `Type` is called `Typ` here
because `Type` is reserved in Lean. -/
structure TraceEntry where
  Typ : TraceEntryTypes
  Flag : Nat
  Param0 : Nat
  Param1 : Nat
  Param2 : Nat
deriving DecidableEq

instance : Inhabited TraceEntry := ⟨⟨.MemoryRead, 0, 0, 0, 0⟩⟩

/-- TraceWriter.cpp line 228: the continue-condition of the scan loop (and of
the diagnostic loop in SetFilter): a rule is skipped when its origin pair has
a zero bound and its target pair has a zero bound. -/
def ruleSkipped (e : FilterEntry) : Bool :=
  (e.originStart == 0 || e.originEnd == 0) && (e.targetStart == 0 || e.targetEnd == 0)

/-- TraceWriter.cpp lines 231-235: the `acc` computation; a range participates
only when both of its bounds are non-zero, and then tests inclusively. -/
def ruleRangeMatch (e : FilterEntry) (instr addr : Nat) : Bool :=
  let acc := true
  let acc := if e.originStart != 0 && e.originEnd != 0 then
      acc && (decide (e.originStart ≤ instr) && decide (instr ≤ e.originEnd))
    else acc
  let acc := if e.targetStart != 0 && e.targetEnd != 0 then
      acc && (decide (e.targetStart ≤ addr) && decide (addr ≤ e.targetEnd))
    else acc
  acc

/-- TraceWriter.cpp lines 240-265: the per-rule type-applicability checks of a
range-matched rule. Returns some (allow, newFlag) when the rule decides the
event (allow is the rule's whitelist bit converted to bool, exactly the C++
`return entry.type & FilterTypeWhiteList`), none when the scan continues.
Covers the call-to-jump linearization rewrite of the flag. -/
def ruleTypeDecision (e : FilterEntry) (ty : TraceEntryTypes) (flag : Nat) : Option (Bool × Nat) :=
  if ty == .MemoryRead && FilterTypeMatch (FilterTypeDataAccess ||| FilterTypeRead) e.type then
    some (e.type &&& FilterTypeWhiteList != 0, flag)
  else if ty == .MemoryWrite && FilterTypeMatch (FilterTypeDataAccess ||| FilterTypeWrite) e.type then
    some (e.type &&& FilterTypeWhiteList != 0, flag)
  else if ty == .Branch && FilterTypeMatch (FilterTypeControlFlow ||| FilterTypeJump) e.type
      && (flag &&& BranchTypeReturn == BranchTypeJump) then
    some (e.type &&& FilterTypeWhiteList != 0, flag)
  else if ty == .Branch && FilterTypeMatch (FilterTypeControlFlow ||| FilterTypeCall) e.type
      && (flag &&& BranchTypeReturn == BranchTypeCall) then
    some (e.type &&& FilterTypeWhiteList != 0,
      if e.type &&& FilterTypeLinearize != 0 then
        flag ^^^ (BranchTypeCall ^^^ BranchTypeJump)
      else flag)
  else if ty == .Branch && FilterTypeMatch (FilterTypeControlFlow ||| FilterTypeCall) e.type
      && (flag &&& BranchTypeReturn == BranchTypeReturn) then
    some (e.type &&& FilterTypeWhiteList != 0, flag)
  else none

/-- One iteration of the scan loop of IsWhitelisted (TraceWriter.cpp
lines 225-266) for one rule. -/
def ruleDecision (e : FilterEntry) (ty : TraceEntryTypes) (instr addr flag : Nat) :
    Option (Bool × Nat) :=
  if ruleSkipped e then none
  else if ruleRangeMatch e instr addr then ruleTypeDecision e ty flag
  else none

/-- The scan loop of IsWhitelisted over the filter table; falls through to
false (TraceWriter.cpp line 268) when no rule decides. The flag reference is
modelled by returning the (possibly rewritten) flag. -/
def scanFilter : List FilterEntry → TraceEntryTypes → Nat → Nat → Nat → Bool × Nat
  | [], _, _, _, flag => (false, flag)
  | e :: rest, ty, instr, addr, flag =>
    match ruleDecision e ty instr addr flag with
    | some r => r
    | none => scanFilter rest ty instr addr flag

/-- TraceWriter::IsWhitelisted (TraceWriter.cpp lines 220-269). The filter
table stands for _filterAddr[0 .. _filterAddrSize); the empty-table early
return true is line 222-223. -/
def IsWhitelisted (table : List FilterEntry) (ty : TraceEntryTypes) (instr addr flag : Nat) :
    Bool × Nat :=
  if table.length == 0 then (true, flag)
  else scanFilter table ty instr addr flag

/-- The process-wide trace writer state: the entry buffer _entries (length
stays `capacity`, the compile-time constant ENTRY_BUFFER_SIZE of the missing
TraceWriter.h), the writes already issued on the current output file, the
installed filter table (_filterAddr/_filterAddrSize) and the static flags. -/
structure TraceWriterState where
  capacity : Nat
  entries : List TraceEntry
  writes : List (List TraceEntry)
  filter : List FilterEntry
  testcaseId : Int
  prefixMode : Bool
  sawFirstReturn : Bool
deriving DecidableEq

/-- TraceWriter::WriteBufferToFile (lines 80-85): writes the records from the
buffer origin up to `endIdx` to the current file, but only when a testcase is
active or prefix mode is on. -/
def WriteBufferToFile (s : TraceWriterState) (endIdx : Nat) : TraceWriterState :=
  if s.testcaseId != -1 || s.prefixMode then
    { s with writes := s.writes ++ [s.entries.take endIdx] }
  else s

/-- TraceWriter::OpenOutputFile (lines 67-78): opens a fresh (truncated)
output file; modelled as clearing the record stream of the current file. -/
def OpenOutputFile (s : TraceWriterState) : TraceWriterState :=
  { s with writes := [] }

/-- TraceWriter::TestcaseEnd (lines 105-130): flushes the pending buffer
prefix (skipped when the cursor sits at the buffer origin), leaves prefix
mode, and deactivates tracing. File-handle closing has no effect on already
written records. -/
def TestcaseEnd (s : TraceWriterState) (nextEntry : Nat) : TraceWriterState :=
  let s1 := if nextEntry != 0 then WriteBufferToFile s nextEntry else s
  let s2 := if s1.prefixMode then { s1 with prefixMode := false } else s1
  { s2 with testcaseId := -1 }

/-- TraceWriter::TestcaseStart (lines 87-103): ends prefix mode if active,
records the new testcase id, clears _sawFirstReturn and opens the new file. -/
def TestcaseStart (s : TraceWriterState) (testcaseId : Int) (nextEntry : Nat) :
    TraceWriterState :=
  let s1 := if s.prefixMode then TestcaseEnd s nextEntry else s
  OpenOutputFile { s1 with testcaseId := testcaseId, sawFirstReturn := false }

/-- TraceWriter::InitPrefixMode (lines 39-55): sets _prefixMode = true and
_sawFirstReturn = true. The metadata text file it opens is not needed by any
claim and is not modelled. -/
def InitPrefixMode (s : TraceWriterState) : TraceWriterState :=
  { s with prefixMode := true, sawFirstReturn := true }

/-- TraceWriter::CheckBufferAndStore (lines 271-286) for a valid trace
writer: a null cursor propagates; a cursor at End() triggers a full-buffer
flush and restarts at Begin(); otherwise the cursor passes through. -/
def CheckBufferAndStore (s : TraceWriterState) (nextEntry : Option Nat) :
    TraceWriterState × Option Nat :=
  match nextEntry with
  | none => (s, none)
  | some i =>
    if i == s.capacity then (WriteBufferToFile s s.capacity, some 0)
    else (s, some i)

/-- A field write through the cursor: the slot at index i is updated by f
(fields the C++ does not assign keep their previous content). -/
def updateSlot (s : TraceWriterState) (i : Nat) (f : TraceEntry → TraceEntry) :
    TraceWriterState :=
  { s with entries := s.entries.set i (f (s.entries.getD i default)) }

/-- The static UINT8 dataAccessFlag of TraceWriter.cpp line 19, zero and never
rewritten (the linearization rewrite only fires for Branch events). -/
def dataAccessFlag : Nat := 0

/-- TraceWriter::InsertMemoryReadEntry (lines 288-300). The result is none
when the C++ dereferences a null cursor (undefined behavior); there is no
null check on this path. -/
def InsertMemoryReadEntry (s : TraceWriterState) (nextEntry : Option Nat)
    (instructionAddress memoryAddress size : Nat) : Option (TraceWriterState × Option Nat) :=
  if s.filter.length > 0
      && !(IsWhitelisted s.filter .MemoryRead instructionAddress memoryAddress dataAccessFlag).1 then
    some (s, nextEntry)
  else
    match nextEntry with
    | none => none
    | some i =>
      some (CheckBufferAndStore
        (updateSlot s i fun old =>
          { old with Typ := .MemoryRead, Param0 := size,
                     Param1 := instructionAddress, Param2 := memoryAddress })
        (some (i + 1)))

/-- TraceWriter::InsertMemoryWriteEntry (lines 302-314); same shape as the
read case. -/
def InsertMemoryWriteEntry (s : TraceWriterState) (nextEntry : Option Nat)
    (instructionAddress memoryAddress size : Nat) : Option (TraceWriterState × Option Nat) :=
  if s.filter.length > 0
      && !(IsWhitelisted s.filter .MemoryWrite instructionAddress memoryAddress dataAccessFlag).1 then
    some (s, nextEntry)
  else
    match nextEntry with
    | none => none
    | some i =>
      some (CheckBufferAndStore
        (updateSlot s i fun old =>
          { old with Typ := .MemoryWrite, Param0 := size,
                     Param1 := instructionAddress, Param2 := memoryAddress })
        (some (i + 1)))

/-- TraceWriter::InsertHeapAllocSizeParameterEntry (lines 316-327): null
cursor or a non-empty filter table short-circuit to a no-op. -/
def InsertHeapAllocSizeParameterEntry (s : TraceWriterState) (nextEntry : Option Nat)
    (size : Nat) : Option (TraceWriterState × Option Nat) :=
  match nextEntry with
  | none => some (s, none)
  | some i =>
    if s.filter.length > 0 then some (s, some i)
    else
      some (CheckBufferAndStore
        (updateSlot s i fun old => { old with Typ := .HeapAllocSizeParameter, Param1 := size })
        (some (i + 1)))

/-- TraceWriter::InsertCallocSizeParameterEntry (lines 329-332): delegates
with count * size (UINT64 multiplication, mod 2^64). -/
def InsertCallocSizeParameterEntry (s : TraceWriterState) (nextEntry : Option Nat)
    (count size : Nat) : Option (TraceWriterState × Option Nat) :=
  InsertHeapAllocSizeParameterEntry s nextEntry ((count * size) % 2 ^ 64)

/-- TraceWriter::InsertHeapAllocAddressReturnEntry (lines 334-345). -/
def InsertHeapAllocAddressReturnEntry (s : TraceWriterState) (nextEntry : Option Nat)
    (memoryAddress : Nat) : Option (TraceWriterState × Option Nat) :=
  match nextEntry with
  | none => some (s, none)
  | some i =>
    if s.filter.length > 0 then some (s, some i)
    else
      some (CheckBufferAndStore
        (updateSlot s i fun old => { old with Typ := .HeapAllocAddressReturn, Param2 := memoryAddress })
        (some (i + 1)))

/-- TraceWriter::InsertHeapFreeAddressParameterEntry (lines 347-358). -/
def InsertHeapFreeAddressParameterEntry (s : TraceWriterState) (nextEntry : Option Nat)
    (memoryAddress : Nat) : Option (TraceWriterState × Option Nat) :=
  match nextEntry with
  | none => some (s, none)
  | some i =>
    if s.filter.length > 0 then some (s, some i)
    else
      some (CheckBufferAndStore
        (updateSlot s i fun old => { old with Typ := .HeapFreeAddressParameter, Param2 := memoryAddress })
        (some (i + 1)))

/-- TraceWriter::InsertStackPointerModificationEntry (lines 360-372): a
non-empty filter table short-circuits; there is no null-cursor check on the
writing path (none = null dereference). -/
def InsertStackPointerModificationEntry (s : TraceWriterState) (nextEntry : Option Nat)
    (instructionAddress newStackPointer flags : Nat) : Option (TraceWriterState × Option Nat) :=
  if s.filter.length > 0 then some (s, nextEntry)
  else
    match nextEntry with
    | none => none
    | some i =>
      some (CheckBufferAndStore
        (updateSlot s i fun old =>
          { old with Typ := .StackPointerModification, Flag := flags,
                     Param1 := instructionAddress, Param2 := newStackPointer })
        (some (i + 1)))

/-- TraceWriter::InsertBranchEntry (lines 374-386). The UINT8 parameter
`type` is passed to IsWhitelisted by reference and may be rewritten by the
linearization; as IsWhitelisted is pure here the rewritten value is read back
as the second component. When the filter table is empty IsWhitelisted returns
the flag unchanged, matching the C++ short-circuit that skips the call. -/
def InsertBranchEntry (s : TraceWriterState) (nextEntry : Option Nat)
    (sourceAddress targetAddress taken ty : Nat) : Option (TraceWriterState × Option Nat) :=
  if s.filter.length > 0
      && !(IsWhitelisted s.filter .Branch sourceAddress targetAddress ty).1 then
    some (s, nextEntry)
  else
    let ty2 := (IsWhitelisted s.filter .Branch sourceAddress targetAddress ty).2
    match nextEntry with
    | none => none
    | some i =>
      some (CheckBufferAndStore
        (updateSlot s i fun old =>
          { old with Typ := .Branch, Param1 := sourceAddress, Param2 := targetAddress,
                     Flag := ty2 ||| (if taken == 0 then BranchNotTaken else BranchTaken) })
        (some (i + 1)))

/-- TraceWriter::InsertRetBranchEntry (lines 388-399): swallows the first
return after testcase begin, then delegates with taken = true and type =
BranchTypeReturn. -/
def InsertRetBranchEntry (s : TraceWriterState) (nextEntry : Option Nat)
    (sourceAddress targetAddress : Nat) : Option (TraceWriterState × Option Nat) :=
  if !s.sawFirstReturn then
    some ({ s with sawFirstReturn := true }, nextEntry)
  else
    InsertBranchEntry s nextEntry sourceAddress targetAddress 1 BranchTypeReturn

/-- TraceWriter::InsertStackPointerInfoEntry (lines 401-409): no filter
consultation and no null-cursor check at all (none = null dereference). -/
def InsertStackPointerInfoEntry (s : TraceWriterState) (nextEntry : Option Nat)
    (stackPointerMin stackPointerMax : Nat) : Option (TraceWriterState × Option Nat) :=
  match nextEntry with
  | none => none
  | some i =>
    some (CheckBufferAndStore
      (updateSlot s i fun old =>
        { old with Typ := .StackPointerInfo, Param1 := stackPointerMin, Param2 := stackPointerMax })
      (some (i + 1)))

/-- A fresh trace writer state: zero-initialized statics, an uninitialized
buffer of `cap` slots, an installed filter table. -/
def initState (cap : Nat) (table : List FilterEntry) : TraceWriterState :=
  { capacity := cap, entries := List.replicate cap default, writes := [],
    filter := table, testcaseId := -1, prefixMode := false, sawFirstReturn := false }

/-- Stated from the amended claim C3: a rule is evaluated as a candidate iff
its origin bounds are both non-zero or its target bounds are both non-zero. -/
def candidateRule (e : FilterEntry) : Bool :=
  (e.originStart != 0 && e.originEnd != 0) || (e.targetStart != 0 && e.targetEnd != 0)

/-- Stated from the amended claim C3: within a candidate rule a range
constrains the match only when both of its bounds are non-zero. -/
def candidateRangeMatch (e : FilterEntry) (instr addr : Nat) : Bool :=
  (!(e.originStart != 0 && e.originEnd != 0)
      || (decide (e.originStart ≤ instr) && decide (instr ≤ e.originEnd))) &&
  (!(e.targetStart != 0 && e.targetEnd != 0)
      || (decide (e.targetStart ≤ addr) && decide (addr ≤ e.targetEnd)))

/-- Scenario driver: one MemoryRead insertion (size 1, addresses derived from
k) threaded through a (state, cursor) pair. -/
def scenarioStep (x : Option (TraceWriterState × Option Nat)) (k : Nat) :
    Option (TraceWriterState × Option Nat) :=
  x.bind fun p => InsertMemoryReadEntry p.1 p.2 (10 + k) (20 + k) 1

/-- Scenario start: buffer capacity 4, empty filter table, testcase 1 active,
cursor at the buffer origin. -/
def scenarioStart : TraceWriterState := TestcaseStart (initState 4 []) 1 0

/-- The scenario after four MemoryRead insertions. -/
def scenarioAfterFour : Option (TraceWriterState × Option Nat) :=
  scenarioStep (scenarioStep (scenarioStep (scenarioStep
    (some (scenarioStart, some 0)) 1) 2) 3) 4

/-- The scenario after six MemoryRead insertions. -/
def scenarioAfterSix : Option (TraceWriterState × Option Nat) :=
  scenarioStep (scenarioStep scenarioAfterFour 5) 6
/-- Helper: scanning a table on which no rule decides the event falls through
to (false, flag). -/
theorem scanFilter_eq_of_no_decision (table : List FilterEntry) (ty : TraceEntryTypes)
    (instr addr flag : Nat)
    (h : ∀ e ∈ table, ruleDecision e ty instr addr flag = none) :
    scanFilter table ty instr addr flag = (false, flag) := by
  induction table with
  | nil => rfl
  | cons e rest ih =>
    have he : ruleDecision e ty instr addr flag = none := h e (List.mem_cons_self e rest)
    simp only [scanFilter, he]
    exact ih fun x hx => h x (List.mem_cons_of_mem e hx)

/-- C1: the filter match is fail-open on an empty table and fail-closed
otherwise: the empty table allows every event, and a non-empty table on which
no rule matches after scanning the whole table yields (false, flag), the flag
unchanged. -/
theorem c1_fail_open_empty_fail_closed_nonempty (table : List FilterEntry)
    (ty : TraceEntryTypes) (instr addr flag : Nat) (hne : table ≠ [])
    (hnomatch : ∀ e ∈ table, ruleDecision e ty instr addr flag = none) :
    IsWhitelisted [] ty instr addr flag = (true, flag) ∧
    IsWhitelisted table ty instr addr flag = (false, flag) := by
  refine ⟨rfl, ?_⟩
  cases table with
  | nil => exact absurd rfl hne
  | cons e rest =>
    simp only [IsWhitelisted, List.length_cons, Nat.succ_ne_zero, beq_iff_eq, if_false]
    · exact scanFilter_eq_of_no_decision (e :: rest) ty instr addr flag hnomatch

/-- Witness for C1 at a concrete one-rule table whose rule does not match the
event (a MemoryRead whose instruction address lies outside the origin range). -/
theorem c1_witness :
    IsWhitelisted [] TraceEntryTypes.MemoryRead 10 0 0 = (true, 0) ∧
    IsWhitelisted [⟨69, 1, 5, 0, 0⟩] TraceEntryTypes.MemoryRead 10 0 0 = (false, 0) :=
  c1_fail_open_empty_fail_closed_nonempty [⟨69, 1, 5, 0, 0⟩] .MemoryRead 10 0 0
    (by decide) (by decide)

/-- C2: contrary to the claim, a null cursor is not a universal no-op
sentinel. With an empty filter table InsertMemoryReadEntry dereferences the
null cursor (undefined behavior, modelled as none) instead of returning it
unchanged, and InsertStackPointerInfoEntry does the same for any table. -/
theorem c2_null_cursor_dereferenced :
    InsertMemoryReadEntry (initState 4 []) none 4096 8192 4 = none ∧
    InsertStackPointerInfoEntry (initState 4 []) none 1 2 = none ∧
    InsertMemoryReadEntry (initState 4 []) none 4096 8192 4 ≠
      some (initState 4 [], none) := by
  refine ⟨rfl, rfl, by decide⟩

/-- C3 is false as stated: the rule ⟨69, 0, 5, 0, 0⟩ has a non-zero bound
(originEnd = 5), yet the scan skips it as inert, so a MemoryRead event that
the whitelisting DataAccess+Read rule would otherwise decide is rejected. -/
theorem c3_counterexample :
    ruleSkipped ⟨69, 0, 5, 0, 0⟩ = true ∧
    (⟨69, 0, 5, 0, 0⟩ : FilterEntry).originEnd ≠ 0 ∧
    IsWhitelisted [⟨69, 0, 5, 0, 0⟩] TraceEntryTypes.MemoryRead 3 7 0 = (false, 0) :=
  ⟨rfl, by decide, rfl⟩

/-- C3 amended: a rule is inert and skipped iff its origin pair has a zero
bound and its target pair has a zero bound — equivalently, it is a candidate
iff its origin bounds are both non-zero or its target bounds are both
non-zero — and within a candidate rule a range constrains the match only when
both of its bounds are non-zero. -/
theorem c3_inert_iff_both_ranges_have_zero_bound (e : FilterEntry)
    (ty : TraceEntryTypes) (instr addr flag : Nat) :
    ruleDecision e ty instr addr flag =
      if candidateRule e && candidateRangeMatch e instr addr then
        ruleTypeDecision e ty flag
      else none := by
  have hc : (!ruleSkipped e) = candidateRule e := by
    simp [ruleSkipped, candidateRule, bne]
  have hr : ruleRangeMatch e instr addr = candidateRangeMatch e instr addr := by
    unfold ruleRangeMatch candidateRangeMatch
    cases h1 : (e.originStart != 0 && e.originEnd != 0) <;>
      cases h2 : (e.targetStart != 0 && e.targetEnd != 0) <;> simp [h1, h2]
  rw [← hc, ← hr]
  unfold ruleDecision
  cases hs : ruleSkipped e <;> cases hm : ruleRangeMatch e instr addr <;> simp [hs, hm]

/-- C4 is false as stated: over the table holding one inert (all-zero-range)
rule the match rejects a MemoryRead event that the empty table allows. -/
theorem c4_counterexample :
    IsWhitelisted [⟨69, 0, 0, 0, 0⟩] TraceEntryTypes.MemoryRead 1 2 0 = (false, 0) ∧
    IsWhitelisted [] TraceEntryTypes.MemoryRead 1 2 0 = (true, 0) :=
  ⟨rfl, rfl⟩

/-- C4 amended: over a table containing exactly one inert rule the match
rejects every event (returns (false, flag)), unlike the empty table, which
allows every event; and such a table counts as non-empty, so the
heap-lifecycle and stack-pointer-modification insertions are still
suppressed (no entry written, state and cursor unchanged). -/
theorem c4_single_inert_rule_rejects_and_suppresses (r : FilterEntry)
    (hr : ruleSkipped r = true) (ty : TraceEntryTypes)
    (instr addr flag sz cnt : Nat) (s : TraceWriterState) (c : Option Nat) :
    IsWhitelisted [r] ty instr addr flag = (false, flag) ∧
    IsWhitelisted [] ty instr addr flag = (true, flag) ∧
    InsertHeapAllocSizeParameterEntry { s with filter := [r] } c sz =
      some ({ s with filter := [r] }, c) ∧
    InsertCallocSizeParameterEntry { s with filter := [r] } c cnt sz =
      some ({ s with filter := [r] }, c) ∧
    InsertHeapAllocAddressReturnEntry { s with filter := [r] } c addr =
      some ({ s with filter := [r] }, c) ∧
    InsertHeapFreeAddressParameterEntry { s with filter := [r] } c addr =
      some ({ s with filter := [r] }, c) ∧
    InsertStackPointerModificationEntry { s with filter := [r] } c instr addr flag =
      some ({ s with filter := [r] }, c) := by
  refine ⟨?_, rfl, ?_, ?_, ?_, ?_, ?_⟩
  · simp [IsWhitelisted, scanFilter, ruleDecision, hr]
  · cases c <;> simp [InsertHeapAllocSizeParameterEntry]
  · cases c <;> simp [InsertCallocSizeParameterEntry, InsertHeapAllocSizeParameterEntry]
  · cases c <;> simp [InsertHeapAllocAddressReturnEntry]
  · cases c <;> simp [InsertHeapFreeAddressParameterEntry]
  · simp [InsertStackPointerModificationEntry]

/-- Witness for C4 at the concrete inert rule ⟨69, 0, 0, 0, 0⟩ and a concrete
state. -/
theorem c4_witness :
    IsWhitelisted [⟨69, 0, 0, 0, 0⟩] TraceEntryTypes.MemoryRead 3 4 0 = (false, 0) ∧
    IsWhitelisted [] TraceEntryTypes.MemoryRead 3 4 0 = (true, 0) ∧
    InsertHeapAllocSizeParameterEntry
        { initState 4 [] with filter := [⟨69, 0, 0, 0, 0⟩] } (some 0) 7 =
      some ({ initState 4 [] with filter := [⟨69, 0, 0, 0, 0⟩] }, some 0) ∧
    InsertCallocSizeParameterEntry
        { initState 4 [] with filter := [⟨69, 0, 0, 0, 0⟩] } (some 0) 2 7 =
      some ({ initState 4 [] with filter := [⟨69, 0, 0, 0, 0⟩] }, some 0) ∧
    InsertHeapAllocAddressReturnEntry
        { initState 4 [] with filter := [⟨69, 0, 0, 0, 0⟩] } (some 0) 4 =
      some ({ initState 4 [] with filter := [⟨69, 0, 0, 0, 0⟩] }, some 0) ∧
    InsertHeapFreeAddressParameterEntry
        { initState 4 [] with filter := [⟨69, 0, 0, 0, 0⟩] } (some 0) 4 =
      some ({ initState 4 [] with filter := [⟨69, 0, 0, 0, 0⟩] }, some 0) ∧
    InsertStackPointerModificationEntry
        { initState 4 [] with filter := [⟨69, 0, 0, 0, 0⟩] } (some 0) 3 4 0 =
      some ({ initState 4 [] with filter := [⟨69, 0, 0, 0, 0⟩] }, some 0) :=
  c4_single_inert_rule_rejects_and_suppresses ⟨69, 0, 0, 0, 0⟩ (by decide)
    .MemoryRead 3 4 0 7 2 (initState 4 []) (some 0)
/-- Helper: on an 8-bit flag whose branch sub-type bits equal Call, the
linearization xor turns the sub-type bits into Jump, also after oring in the
taken bit. -/
theorem uint8_linearize_bits :
    ∀ g < 256, g &&& BranchTypeReturn = BranchTypeCall →
      (g ^^^ (BranchTypeCall ^^^ BranchTypeJump)) &&& BranchTypeReturn = BranchTypeJump ∧
      ((g ^^^ (BranchTypeCall ^^^ BranchTypeJump)) ||| BranchTaken) &&& BranchTypeReturn
        = BranchTypeJump := by
  decide

/-- C5: a Branch event whose flag sub-type is Call, range-matched by a
whitelist rule tagged ControlFlow+Call that carries the Linearize sub-flag,
has its flag's branch sub-type bits rewritten from Call to Jump by the match,
and the entry recorded by InsertBranchEntry carries sub-type bits equal to
Jump, not Call. -/
theorem c5_linearize_rewrites_call_to_jump (e : FilterEntry) (instr addr flag cap : Nat)
    (hskip : ruleSkipped e = false) (hrange : ruleRangeMatch e instr addr = true)
    (hcall : FilterTypeMatch (FilterTypeControlFlow ||| FilterTypeCall) e.type = true)
    (hlin : e.type &&& FilterTypeLinearize ≠ 0)
    (hwl : e.type &&& FilterTypeWhiteList ≠ 0)
    (hflag : flag &&& BranchTypeReturn = BranchTypeCall)
    (hflag8 : flag < 256) (hcap : 2 ≤ cap) :
    ((IsWhitelisted [e] .Branch instr addr flag).2 &&& BranchTypeReturn = BranchTypeJump) ∧
    (∃ f, InsertBranchEntry (initState cap [e]) (some 0) instr addr 1 flag =
        some (updateSlot (initState cap [e]) 0 (fun old =>
          { old with Typ := .Branch, Param1 := instr, Param2 := addr, Flag := f }), some 1) ∧
      f &&& BranchTypeReturn = BranchTypeJump) := by
  have hjumpne : (flag &&& BranchTypeReturn == BranchTypeJump) = false := by
    rw [hflag]; rfl
  have hcalleq : (flag &&& BranchTypeReturn == BranchTypeCall) = true := by
    rw [hflag]; rfl
  have hiw : IsWhitelisted [e] .Branch instr addr flag =
      (true, flag ^^^ (BranchTypeCall ^^^ BranchTypeJump)) := by
    simp [IsWhitelisted, scanFilter, ruleDecision, ruleTypeDecision, hskip, hrange,
      hcall, hjumpne, hcalleq, hlin, hwl]
  have h1cap : ((1 : Nat) == cap) = false := by
    simp only [beq_eq_false_iff_ne]; omega
  refine ⟨?_, ⟨(flag ^^^ (BranchTypeCall ^^^ BranchTypeJump)) ||| BranchTaken, ?_, ?_⟩⟩
  · rw [hiw]
    exact (uint8_linearize_bits flag hflag8 hflag).1
  · simp [InsertBranchEntry, hiw, CheckBufferAndStore, updateSlot, initState, h1cap]
  · exact (uint8_linearize_bits flag hflag8 hflag).2

/-- Witness for C5: rule type 83 = WhiteList|ControlFlow|Call|Linearize with
origin range 1..10, a call-flagged Branch event at instruction 5, target 7,
flag 8 (Call). -/
theorem c5_witness :
    ((IsWhitelisted [⟨83, 1, 10, 0, 0⟩] .Branch 5 7 8).2 &&& BranchTypeReturn
      = BranchTypeJump) ∧
    (∃ f, InsertBranchEntry (initState 2 [⟨83, 1, 10, 0, 0⟩]) (some 0) 5 7 1 8 =
        some (updateSlot (initState 2 [⟨83, 1, 10, 0, 0⟩]) 0 (fun old =>
          { old with Typ := .Branch, Param1 := 5, Param2 := 7, Flag := f }), some 1) ∧
      f &&& BranchTypeReturn = BranchTypeJump) :=
  c5_linearize_rewrites_call_to_jump ⟨83, 1, 10, 0, 0⟩ 5 7 8 2 (by decide) (by decide)
    (by decide) (by decide) (by decide) (by decide) (by decide) (by decide)

/-- C6: a Branch event whose flag sub-type is Return is decided by a
range-matched rule exactly when the rule is tagged ControlFlow+Call: such a
rule returns its whitelist bit with the flag unchanged, while a range-matched
rule without the ControlFlow+Call tags (for instance one tagged only with the
Return sub-bit) never decides a return event. -/
theorem c6_return_matched_under_call_subcheck (e : FilterEntry) (instr addr flag : Nat)
    (hskip : ruleSkipped e = false) (hrange : ruleRangeMatch e instr addr = true)
    (hflag : flag &&& BranchTypeReturn = BranchTypeReturn) :
    (FilterTypeMatch (FilterTypeControlFlow ||| FilterTypeCall) e.type = true →
      IsWhitelisted [e] .Branch instr addr flag =
        ((e.type &&& FilterTypeWhiteList != 0), flag)) ∧
    (FilterTypeMatch (FilterTypeControlFlow ||| FilterTypeCall) e.type = false →
      IsWhitelisted [e] .Branch instr addr flag = (false, flag)) := by
  have hj : (flag &&& BranchTypeReturn == BranchTypeJump) = false := by
    rw [hflag]; rfl
  have hc : (flag &&& BranchTypeReturn == BranchTypeCall) = false := by
    rw [hflag]; rfl
  have hret : (flag &&& BranchTypeReturn == BranchTypeReturn) = true := by
    rw [hflag]; rfl
  constructor
  · intro h
    simp [IsWhitelisted, scanFilter, ruleDecision, ruleTypeDecision, hskip, hrange,
      h, hj, hc, hret]
  · intro h
    simp [IsWhitelisted, scanFilter, ruleDecision, ruleTypeDecision, hskip, hrange,
      h, hj, hc, hret]

/-- Witness for C6: the return-flagged event (flag 12) at instruction 5 is
whitelisted by the rule of type 19 = WhiteList|ControlFlow|Call with origin
range 1..10 even though the rule's Return sub-bit is clear. -/
theorem c6_witness :
    IsWhitelisted [⟨19, 1, 10, 0, 0⟩] .Branch 5 7 12 = (true, 12) :=
  (c6_return_matched_under_call_subcheck ⟨19, 1, 10, 0, 0⟩ 5 7 12 (by decide)
    (by decide) (by decide)).1 (by decide)

/-- C7: once the filter table is non-empty, every heap-lifecycle insertion
(alloc-size, calloc-size, alloc-address return, free-address parameter) and
the stack-pointer-modification insertion write no entry and return the state
and cursor unchanged, whatever the addresses, flag and rule contents are. -/
theorem c7_heap_and_sp_mod_suppressed_when_filter_nonempty (s : TraceWriterState)
    (c : Option Nat) (a b sz cnt fl : Nat) (h : 0 < s.filter.length) :
    InsertHeapAllocSizeParameterEntry s c sz = some (s, c) ∧
    InsertCallocSizeParameterEntry s c cnt sz = some (s, c) ∧
    InsertHeapAllocAddressReturnEntry s c a = some (s, c) ∧
    InsertHeapFreeAddressParameterEntry s c a = some (s, c) ∧
    InsertStackPointerModificationEntry s c a b fl = some (s, c) := by
  refine ⟨?_, ?_, ?_, ?_, ?_⟩ <;> cases c <;>
    simp [InsertHeapAllocSizeParameterEntry, InsertCallocSizeParameterEntry,
      InsertHeapAllocAddressReturnEntry, InsertHeapFreeAddressParameterEntry,
      InsertStackPointerModificationEntry, h]

/-- Witness for C7 at a concrete non-empty table (one whitelist-everything
DataAccess rule) and a concrete cursor. -/
theorem c7_witness :
    InsertHeapAllocSizeParameterEntry (initState 4 [⟨69, 1, 10, 1, 10⟩]) (some 0) 7 =
      some (initState 4 [⟨69, 1, 10, 1, 10⟩], some 0) ∧
    InsertCallocSizeParameterEntry (initState 4 [⟨69, 1, 10, 1, 10⟩]) (some 0) 2 7 =
      some (initState 4 [⟨69, 1, 10, 1, 10⟩], some 0) ∧
    InsertHeapAllocAddressReturnEntry (initState 4 [⟨69, 1, 10, 1, 10⟩]) (some 0) 5 =
      some (initState 4 [⟨69, 1, 10, 1, 10⟩], some 0) ∧
    InsertHeapFreeAddressParameterEntry (initState 4 [⟨69, 1, 10, 1, 10⟩]) (some 0) 5 =
      some (initState 4 [⟨69, 1, 10, 1, 10⟩], some 0) ∧
    InsertStackPointerModificationEntry (initState 4 [⟨69, 1, 10, 1, 10⟩]) (some 0) 5 6 0 =
      some (initState 4 [⟨69, 1, 10, 1, 10⟩], some 0) :=
  c7_heap_and_sp_mod_suppressed_when_filter_nonempty (initState 4 [⟨69, 1, 10, 1, 10⟩])
    (some 0) 5 6 7 2 0 (by decide)
/-- C8: the first-return suppression is a one-shot per-testcase flag:
TestcaseStart clears sawFirstReturn; with the flag clear InsertRetBranchEntry
writes nothing, sets the flag and returns the cursor unchanged; with the flag
set it behaves as a plain return-branch insertion; InitPrefixMode starts with
the flag already set. Concretely, after TestcaseStart the first return-branch
insertion writes no entry and the second writes a Branch record and advances
the cursor. -/
theorem c8_first_return_one_shot (s : TraceWriterState) (c : Option Nat)
    (src tgt ne : Nat) (id : Int) :
    (TestcaseStart s id ne).sawFirstReturn = false ∧
    (InitPrefixMode s).sawFirstReturn = true ∧
    InsertRetBranchEntry { s with sawFirstReturn := false } c src tgt =
      some ({ s with sawFirstReturn := true }, c) ∧
    InsertRetBranchEntry { s with sawFirstReturn := true } c src tgt =
      InsertBranchEntry { s with sawFirstReturn := true } c src tgt 1 BranchTypeReturn ∧
    InsertRetBranchEntry (TestcaseStart (initState 4 []) 1 0) (some 0) src tgt =
      some ({ TestcaseStart (initState 4 []) 1 0 with sawFirstReturn := true }, some 0) ∧
    InsertRetBranchEntry { TestcaseStart (initState 4 []) 1 0 with sawFirstReturn := true }
        (some 0) src tgt =
      some (updateSlot { TestcaseStart (initState 4 []) 1 0 with sawFirstReturn := true } 0
        (fun old => { old with Typ := .Branch, Param1 := src, Param2 := tgt,
                               Flag := BranchTypeReturn ||| BranchTaken }), some 1) := by
  refine ⟨?_, rfl, ?_, ?_, ?_, ?_⟩
  · simp [TestcaseStart, OpenOutputFile]
  · simp [InsertRetBranchEntry]
  · simp [InsertRetBranchEntry]
  · simp [InsertRetBranchEntry, TestcaseStart, OpenOutputFile, initState]
  · rfl

/-- C9: with buffer capacity 4 and an empty filter table, four MemoryRead
insertions cause exactly one flush of exactly 4 records and return the cursor
to the buffer origin; two further insertions followed by TestcaseEnd cause a
second flush of exactly 2 records, for 6 records of file content in total;
and a flush at cursor = origin (TestcaseEnd at the buffer origin) never
writes. -/
theorem c9_buffer_flush_protocol :
    (scenarioAfterFour.map fun p => (p.1.writes.map List.length, p.2)) =
      some ([4], some 0) ∧
    (scenarioAfterSix.map fun p => ((TestcaseEnd p.1 (p.2.getD 0)).writes.map List.length)) =
      some [4, 2] ∧
    (scenarioAfterSix.map fun p => ((TestcaseEnd p.1 (p.2.getD 0)).writes.flatten.length)) =
      some 6 ∧
    ∀ s : TraceWriterState, (TestcaseEnd s 0).writes = s.writes := by
  refine ⟨rfl, rfl, rfl, ?_⟩
  intro s
  cases hp : s.prefixMode <;> simp [TestcaseEnd, hp]

/-- C10: InsertStackPointerInfoEntry writes a StackPointerInfo record and
advances the cursor for every state, whatever the filter table holds; and it
performs no null-cursor check, so a null cursor is dereferenced (modelled as
none) instead of propagating. -/
theorem c10_sp_info_ignores_filter_and_null_check (s : TraceWriterState) (i a b : Nat)
    (h : i + 1 ≠ s.capacity) :
    InsertStackPointerInfoEntry s (some i) a b =
      some (updateSlot s i (fun old =>
        { old with Typ := .StackPointerInfo, Param1 := a, Param2 := b }), some (i + 1)) ∧
    InsertStackPointerInfoEntry s none a b = none := by
  have hcap : ((i + 1) == s.capacity) = false := by
    simp only [beq_eq_false_iff_ne]; exact h
  refine ⟨?_, rfl⟩
  simp [InsertStackPointerInfoEntry, CheckBufferAndStore, updateSlot, hcap]

/-- Witness for C10 at a state with a non-empty filter table: the record is
written and the cursor advances anyway. -/
theorem c10_witness :
    InsertStackPointerInfoEntry (initState 4 [⟨69, 1, 10, 1, 10⟩]) (some 0) 5 6 =
      some (updateSlot (initState 4 [⟨69, 1, 10, 1, 10⟩]) 0 (fun old =>
        { old with Typ := .StackPointerInfo, Param1 := 5, Param2 := 6 }), some 1) ∧
    InsertStackPointerInfoEntry (initState 4 [⟨69, 1, 10, 1, 10⟩]) none 5 6 = none :=
  c10_sp_info_ignores_filter_and_null_check (initState 4 [⟨69, 1, 10, 1, 10⟩]) 0 5 6
    (by decide)
